import Mathlib

/-!
Shallow embedding of `src/walls.c` (micromouse wall-sensor module).

The C module keeps two process-wide arrays indexed by the four-sensor
enumeration (front-left, front-right, side-left, side-right, in that
order, as fixed by the initializers of `sensors_calibration_a/b`):
`distance[]` and `calibration_factor[]`.  We model the pair as a
`WallsState` and every C function as a pure Lean function over it.
Floating point is modelled by `ℚ`.  External collaborators
(`sensor_adc_get_value_on/off`, `sensor_raw_log`, `CELL_DIMENSION`,
`MIDDLE_MAZE_DISTANCE`) are passed as parameters.
-/

namespace Walls

/-- Sensor identity: exactly four sensors, fixed order. -/
abbrev SensorId := Fin 4

def SENSOR_FRONT_LEFT : SensorId := 0
def SENSOR_FRONT_RIGHT : SensorId := 1
def SENSOR_SIDE_LEFT : SensorId := 2
def SENSOR_SIDE_RIGHT : SensorId := 3

/-- Per-sensor calibration constant `a` (walls.c lines 21-23). -/
def sensors_calibration_a (i : SensorId) : ℚ :=
  if i = SENSOR_FRONT_LEFT then 1500.462
  else if i = SENSOR_FRONT_RIGHT then 1378.603
  else if i = SENSOR_SIDE_LEFT then 2.806
  else 2.327

/-- Per-sensor calibration constant `b` (walls.c lines 24-26). -/
def sensors_calibration_b (i : SensorId) : ℚ :=
  if i = SENSOR_FRONT_LEFT then 138.777
  else if i = SENSOR_FRONT_RIGHT then 124.503
  else if i = SENSOR_SIDE_LEFT then 0.287
  else 0.231

/-- The two static arrays of walls.c, lines 17-18. -/
structure WallsState where
  distance : SensorId → ℚ
  calibration_factor : SensorId → ℚ

/-- C statics are zero-initialized. -/
def initial_state : WallsState := ⟨fun _ => 0, fun _ => 0⟩

def SIDE_CALIBRATION_READINGS : ℕ := 20

def DIAGONAL_MIN_DISTANCE : ℚ := 0.24

/-- Embedding of `update_distance_readings` (walls.c lines 39-53).
The acquisition collaborator is modelled by the raw sample maps `onv`
and `offv` (the on/off ADC values) and the log-ratio primitive
`sensor_raw_log`. -/
def update_distance_readings (sensor_raw_log : ℕ → ℕ → ℚ)
    (onv offv : SensorId → ℕ) (s : WallsState) : WallsState :=
  { s with distance := fun i =>
      let d := sensors_calibration_a i / sensor_raw_log (onv i) (offv i) -
        sensors_calibration_b i
      if i = SENSOR_SIDE_LEFT ∨ i = SENSOR_SIDE_RIGHT then
        d - s.calibration_factor i
      else d }

/-- Embedding of `get_front_left_distance` (walls.c lines 58-61). -/
def get_front_left_distance (s : WallsState) : ℚ :=
  s.distance SENSOR_FRONT_LEFT

/-- Embedding of `get_front_right_distance` (walls.c lines 66-69). -/
def get_front_right_distance (s : WallsState) : ℚ :=
  s.distance SENSOR_FRONT_RIGHT

/-- Embedding of `get_side_left_distance` (walls.c lines 74-77). -/
def get_side_left_distance (s : WallsState) : ℚ :=
  s.distance SENSOR_SIDE_LEFT

/-- Embedding of `get_side_right_distance` (walls.c lines 82-85). -/
def get_side_right_distance (s : WallsState) : ℚ :=
  s.distance SENSOR_SIDE_RIGHT

/-- Embedding of `get_side_sensors_close_error` (walls.c lines 94-107).
`MIDDLE_MAZE_DISTANCE` comes from an external header, so it is a
parameter. -/
def get_side_sensors_close_error (MIDDLE_MAZE_DISTANCE : ℚ)
    (s : WallsState) : ℚ :=
  let left_error := s.distance SENSOR_SIDE_LEFT - MIDDLE_MAZE_DISTANCE
  let right_error := s.distance SENSOR_SIDE_RIGHT - MIDDLE_MAZE_DISTANCE
  if left_error > 0 ∧ right_error < 0 then right_error
  else if right_error > 0 ∧ left_error < 0 then -left_error
  else 0

/-- Embedding of `get_side_sensors_far_error` (walls.c lines 115-128). -/
def get_side_sensors_far_error (MIDDLE_MAZE_DISTANCE : ℚ)
    (s : WallsState) : ℚ :=
  let left_error := s.distance SENSOR_SIDE_LEFT - MIDDLE_MAZE_DISTANCE
  let right_error := s.distance SENSOR_SIDE_RIGHT - MIDDLE_MAZE_DISTANCE
  if left_error > 0.1 ∧ right_error < 0.04 then right_error
  else if right_error > 0.1 ∧ left_error < 0.04 then -left_error
  else 0

/-- Embedding of `front_wall_detection` (walls.c lines 198-204);
threshold `FRONT_WALL_DETECTION = CELL_DIMENSION * 1.5` (line 30). -/
def front_wall_detection (CELL_DIMENSION : ℚ) (s : WallsState) : Bool :=
  decide (s.distance SENSOR_FRONT_LEFT < CELL_DIMENSION * 1.5) &&
    decide (s.distance SENSOR_FRONT_RIGHT < CELL_DIMENSION * 1.5)

/-- Embedding of `get_front_sensors_error` (walls.c lines 138-143). -/
def get_front_sensors_error (CELL_DIMENSION : ℚ) (s : WallsState) : ℚ :=
  if front_wall_detection CELL_DIMENSION s then
    s.distance SENSOR_FRONT_LEFT - s.distance SENSOR_FRONT_RIGHT
  else 0

/-- Embedding of `get_diagonal_sensors_error` (walls.c lines 152-165). -/
def get_diagonal_sensors_error (s : WallsState) : ℚ :=
  let left_error := s.distance SENSOR_FRONT_LEFT - DIAGONAL_MIN_DISTANCE
  let right_error := s.distance SENSOR_FRONT_RIGHT - DIAGONAL_MIN_DISTANCE
  if right_error < 0 then right_error
  else if left_error < 0 then -left_error
  else 0

/-- Embedding of `get_front_wall_distance` (walls.c lines 170-175). -/
def get_front_wall_distance (s : WallsState) : ℚ :=
  (s.distance SENSOR_FRONT_LEFT + s.distance SENSOR_FRONT_RIGHT) / 2

/-- Embedding of `left_wall_detection` (walls.c lines 180-184);
threshold `SIDE_WALL_DETECTION = CELL_DIMENSION * 0.90` (line 29). -/
def left_wall_detection (CELL_DIMENSION : ℚ) (s : WallsState) : Bool :=
  decide (s.distance SENSOR_SIDE_LEFT < CELL_DIMENSION * 0.90)

/-- Embedding of `right_wall_detection` (walls.c lines 189-193). -/
def right_wall_detection (CELL_DIMENSION : ℚ) (s : WallsState) : Bool :=
  decide (s.distance SENSOR_SIDE_RIGHT < CELL_DIMENSION * 0.90)

/-- Embedding of `struct walls_around` (walls.h). -/
structure walls_around where
  left : Bool
  front : Bool
  right : Bool

/-- Embedding of `read_walls` (walls.c lines 209-217). -/
def read_walls (CELL_DIMENSION : ℚ) (s : WallsState) : walls_around :=
  { left := left_wall_detection CELL_DIMENSION s
    front := front_wall_detection CELL_DIMENSION s
    right := right_wall_detection CELL_DIMENSION s }

/-- Embedding of `side_sensors_calibration` (walls.c lines 222-237).
The loop reads the (unchanging, in the sequential model) current side
distances `SIDE_CALIBRATION_READINGS` times, accumulating into local
sums; the `time_wait_ms` delay has no effect on this state. -/
def side_sensors_calibration (MIDDLE_MAZE_DISTANCE : ℚ)
    (s : WallsState) : WallsState :=
  let left_temp := (List.range SIDE_CALIBRATION_READINGS).foldl
    (fun acc _ => acc + s.distance SENSOR_SIDE_LEFT) 0
  let right_temp := (List.range SIDE_CALIBRATION_READINGS).foldl
    (fun acc _ => acc + s.distance SENSOR_SIDE_RIGHT) 0
  { s with calibration_factor := fun i =>
      if i = SENSOR_SIDE_LEFT then
        s.calibration_factor i +
          (left_temp / (SIDE_CALIBRATION_READINGS : ℚ) - MIDDLE_MAZE_DISTANCE)
      else if i = SENSOR_SIDE_RIGHT then
        s.calibration_factor i +
          (right_temp / (SIDE_CALIBRATION_READINGS : ℚ) - MIDDLE_MAZE_DISTANCE)
      else s.calibration_factor i }

/-- An operation of the module that mutates the shared state (the
accessors, detectors and error functions are pure reads). -/
inductive Op where
  | update (sensor_raw_log : ℕ → ℕ → ℚ) (onv offv : SensorId → ℕ)
  | calibrate (MIDDLE_MAZE_DISTANCE : ℚ)

def apply_op : Op → WallsState → WallsState
  | Op.update srl onv offv, s => update_distance_readings srl onv offv s
  | Op.calibrate mid, s => side_sensors_calibration mid s

def run_ops (ops : List Op) (s : WallsState) : WallsState :=
  ops.foldl (fun st op => apply_op op st) s

/-- Concrete state builder for tests: the four distances in enumeration
order, all calibration offsets zero. -/
def mkDistState (fl fr sl sr : ℚ) : WallsState :=
  ⟨fun i =>
    if i = SENSOR_FRONT_LEFT then fl
    else if i = SENSOR_FRONT_RIGHT then fr
    else if i = SENSOR_SIDE_LEFT then sl
    else sr,
   fun _ => 0⟩

@[simp] lemma mkDistState_front_left (fl fr sl sr : ℚ) :
    (mkDistState fl fr sl sr).distance SENSOR_FRONT_LEFT = fl := rfl

@[simp] lemma mkDistState_front_right (fl fr sl sr : ℚ) :
    (mkDistState fl fr sl sr).distance SENSOR_FRONT_RIGHT = fr := rfl

@[simp] lemma mkDistState_side_left (fl fr sl sr : ℚ) :
    (mkDistState fl fr sl sr).distance SENSOR_SIDE_LEFT = sl := rfl

@[simp] lemma mkDistState_side_right (fl fr sl sr : ℚ) :
    (mkDistState fl fr sl sr).distance SENSOR_SIDE_RIGHT = sr := rfl

@[simp] lemma mkDistState_cf (fl fr sl sr : ℚ) (i : SensorId) :
    (mkDistState fl fr sl sr).calibration_factor i = 0 := rfl

/-- Folding a constant addition over a list sums it length-many times. -/
lemma foldl_add_const (c : ℚ) : ∀ (l : List ℕ) (a : ℚ),
    l.foldl (fun acc _ => acc + c) a = a + l.length * c
  | [], a => by simp
  | x :: l, a => by
    simp only [List.foldl_cons, List.length_cons, foldl_add_const c l]
    push_cast
    ring

/-- `side_sensors_calibration` leaves the front calibration offsets
untouched. -/
lemma side_calibration_front_cf (mid : ℚ) (s : WallsState) :
    (side_sensors_calibration mid s).calibration_factor SENSOR_FRONT_LEFT =
      s.calibration_factor SENSOR_FRONT_LEFT ∧
    (side_sensors_calibration mid s).calibration_factor SENSOR_FRONT_RIGHT =
      s.calibration_factor SENSOR_FRONT_RIGHT := by
  constructor <;>
    simp [side_sensors_calibration, SENSOR_FRONT_LEFT, SENSOR_FRONT_RIGHT,
      SENSOR_SIDE_LEFT, SENSOR_SIDE_RIGHT]

/-- Any sequence of mutating operations preserves the front calibration
offsets. -/
lemma run_ops_cf_front (ops : List Op) : ∀ s : WallsState,
    (run_ops ops s).calibration_factor SENSOR_FRONT_LEFT =
      s.calibration_factor SENSOR_FRONT_LEFT ∧
    (run_ops ops s).calibration_factor SENSOR_FRONT_RIGHT =
      s.calibration_factor SENSOR_FRONT_RIGHT := by
  induction ops with
  | nil => intro s; exact ⟨rfl, rfl⟩
  | cons op ops ih =>
    intro s
    have h := ih (apply_op op s)
    have hop : (apply_op op s).calibration_factor SENSOR_FRONT_LEFT =
        s.calibration_factor SENSOR_FRONT_LEFT ∧
        (apply_op op s).calibration_factor SENSOR_FRONT_RIGHT =
        s.calibration_factor SENSOR_FRONT_RIGHT := by
      cases op with
      | update srl onv offv => exact ⟨rfl, rfl⟩
      | calibrate mid => exact side_calibration_front_cf mid s
    exact ⟨h.1.trans hop.1, h.2.trans hop.2⟩

/-- C1: after `update_distance_readings` with the acquisition collaborator
returning fixed samples, each accessor returns exactly `a/ratio − b` with
`ratio = sensor_raw_log(on, off)`; for the two side sensors the current
runtime calibration offset is additionally subtracted, and for the two
front sensors no offset is subtracted. -/
theorem walls_C1 (sensor_raw_log : ℕ → ℕ → ℚ) (onv offv : SensorId → ℕ)
    (s : WallsState) :
    get_front_left_distance (update_distance_readings sensor_raw_log onv offv s) =
      sensors_calibration_a SENSOR_FRONT_LEFT /
        sensor_raw_log (onv SENSOR_FRONT_LEFT) (offv SENSOR_FRONT_LEFT) -
        sensors_calibration_b SENSOR_FRONT_LEFT ∧
    get_front_right_distance (update_distance_readings sensor_raw_log onv offv s) =
      sensors_calibration_a SENSOR_FRONT_RIGHT /
        sensor_raw_log (onv SENSOR_FRONT_RIGHT) (offv SENSOR_FRONT_RIGHT) -
        sensors_calibration_b SENSOR_FRONT_RIGHT ∧
    get_side_left_distance (update_distance_readings sensor_raw_log onv offv s) =
      sensors_calibration_a SENSOR_SIDE_LEFT /
        sensor_raw_log (onv SENSOR_SIDE_LEFT) (offv SENSOR_SIDE_LEFT) -
        sensors_calibration_b SENSOR_SIDE_LEFT -
        s.calibration_factor SENSOR_SIDE_LEFT ∧
    get_side_right_distance (update_distance_readings sensor_raw_log onv offv s) =
      sensors_calibration_a SENSOR_SIDE_RIGHT /
        sensor_raw_log (onv SENSOR_SIDE_RIGHT) (offv SENSOR_SIDE_RIGHT) -
        sensors_calibration_b SENSOR_SIDE_RIGHT -
        s.calibration_factor SENSOR_SIDE_RIGHT := by
  refine ⟨?_, ?_, ?_, ?_⟩ <;>
    simp [get_front_left_distance, get_front_right_distance,
      get_side_left_distance, get_side_right_distance,
      update_distance_readings, SENSOR_FRONT_LEFT, SENSOR_FRONT_RIGHT,
      SENSOR_SIDE_LEFT, SENSOR_SIDE_RIGHT]

/-- C2 counterexample: with side-left 0.12, side-right 0.10 and
MIDDLE_MAZE_DISTANCE 0.085, `get_side_sensors_close_error` does NOT
return 0.015: right_error = 0.015 is positive, not negative, so neither
branch fires. -/
theorem walls_C2_counterexample :
    get_side_sensors_close_error 0.085 (mkDistState 0 0 0.12 0.10) ≠ 0.015 := by
  norm_num [get_side_sensors_close_error]

/-- C2 (amended): with side-left 0.12, side-right 0.10 and
MIDDLE_MAZE_DISTANCE 0.085, left_error = 0.035 > 0 and
right_error = 0.015 > 0, so both errors have the same sign and
`get_side_sensors_close_error` returns 0. -/
theorem walls_C2_amended :
    (0.12 : ℚ) - 0.085 > 0 ∧ (0.10 : ℚ) - 0.085 > 0 ∧
    get_side_sensors_close_error 0.085 (mkDistState 0 0 0.12 0.10) = 0 := by
  refine ⟨by norm_num, by norm_num, ?_⟩
  norm_num [get_side_sensors_close_error]

/-- C3: with left_error and right_error the side distances minus
MIDDLE_MAZE_DISTANCE, `get_side_sensors_close_error` returns right_error
when left_error > 0 and right_error < 0, returns −left_error when
right_error > 0 and left_error < 0, and returns 0 whenever both errors
have the same sign or either is exactly 0. -/
theorem walls_C3 (MIDDLE_MAZE_DISTANCE : ℚ) (s : WallsState) :
    ((s.distance SENSOR_SIDE_LEFT - MIDDLE_MAZE_DISTANCE > 0 ∧
      s.distance SENSOR_SIDE_RIGHT - MIDDLE_MAZE_DISTANCE < 0) →
      get_side_sensors_close_error MIDDLE_MAZE_DISTANCE s =
        s.distance SENSOR_SIDE_RIGHT - MIDDLE_MAZE_DISTANCE) ∧
    ((s.distance SENSOR_SIDE_RIGHT - MIDDLE_MAZE_DISTANCE > 0 ∧
      s.distance SENSOR_SIDE_LEFT - MIDDLE_MAZE_DISTANCE < 0) →
      get_side_sensors_close_error MIDDLE_MAZE_DISTANCE s =
        -(s.distance SENSOR_SIDE_LEFT - MIDDLE_MAZE_DISTANCE)) ∧
    (((s.distance SENSOR_SIDE_LEFT - MIDDLE_MAZE_DISTANCE > 0 ∧
       s.distance SENSOR_SIDE_RIGHT - MIDDLE_MAZE_DISTANCE > 0) ∨
      (s.distance SENSOR_SIDE_LEFT - MIDDLE_MAZE_DISTANCE < 0 ∧
       s.distance SENSOR_SIDE_RIGHT - MIDDLE_MAZE_DISTANCE < 0) ∨
      s.distance SENSOR_SIDE_LEFT - MIDDLE_MAZE_DISTANCE = 0 ∨
      s.distance SENSOR_SIDE_RIGHT - MIDDLE_MAZE_DISTANCE = 0) →
      get_side_sensors_close_error MIDDLE_MAZE_DISTANCE s = 0) := by
  simp only [get_side_sensors_close_error]
  split_ifs with hA hB
  · obtain ⟨hA1, hA2⟩ := hA
    refine ⟨fun h => rfl, fun h => ?_, fun h => ?_⟩
    · exact absurd hA2 (asymm h.1)
    · exfalso
      rcases h with ⟨h1, h2⟩ | ⟨h1, h2⟩ | h1 | h1 <;> linarith
  · obtain ⟨hB1, hB2⟩ := hB
    refine ⟨fun h => ?_, fun h => rfl, fun h => ?_⟩
    · exact absurd hB2 (asymm h.1)
    · exfalso
      rcases h with ⟨h1, h2⟩ | ⟨h1, h2⟩ | h1 | h1 <;> linarith
  · exact ⟨fun h => absurd h hA, fun h => absurd h hB, fun h => rfl⟩

/-- C3 witness: side-left 0.12, side-right 0.07, MIDDLE_MAZE_DISTANCE
0.085 gives left_error 0.035 > 0 and right_error −0.015 < 0, and the
close error is right_error. -/
theorem walls_C3_witness :
    get_side_sensors_close_error 0.085 (mkDistState 0 0 0.12 0.07) =
      (mkDistState 0 0 0.12 0.07).distance SENSOR_SIDE_RIGHT - 0.085 :=
  (walls_C3 0.085 (mkDistState 0 0 0.12 0.07)).1
    ⟨by norm_num, by norm_num⟩

/-- C4: with left_error and right_error the side distances minus
MIDDLE_MAZE_DISTANCE, `get_side_sensors_far_error` returns right_error
when left_error > 0.1 and right_error < 0.04, returns −left_error when
right_error > 0.1 and left_error < 0.04, and returns 0 in every other
case. -/
theorem walls_C4 (MIDDLE_MAZE_DISTANCE : ℚ) (s : WallsState) :
    ((s.distance SENSOR_SIDE_LEFT - MIDDLE_MAZE_DISTANCE > 0.1 ∧
      s.distance SENSOR_SIDE_RIGHT - MIDDLE_MAZE_DISTANCE < 0.04) →
      get_side_sensors_far_error MIDDLE_MAZE_DISTANCE s =
        s.distance SENSOR_SIDE_RIGHT - MIDDLE_MAZE_DISTANCE) ∧
    ((s.distance SENSOR_SIDE_RIGHT - MIDDLE_MAZE_DISTANCE > 0.1 ∧
      s.distance SENSOR_SIDE_LEFT - MIDDLE_MAZE_DISTANCE < 0.04) →
      get_side_sensors_far_error MIDDLE_MAZE_DISTANCE s =
        -(s.distance SENSOR_SIDE_LEFT - MIDDLE_MAZE_DISTANCE)) ∧
    ((¬(s.distance SENSOR_SIDE_LEFT - MIDDLE_MAZE_DISTANCE > 0.1 ∧
        s.distance SENSOR_SIDE_RIGHT - MIDDLE_MAZE_DISTANCE < 0.04) ∧
      ¬(s.distance SENSOR_SIDE_RIGHT - MIDDLE_MAZE_DISTANCE > 0.1 ∧
        s.distance SENSOR_SIDE_LEFT - MIDDLE_MAZE_DISTANCE < 0.04)) →
      get_side_sensors_far_error MIDDLE_MAZE_DISTANCE s = 0) := by
  simp only [get_side_sensors_far_error]
  split_ifs with hA hB
  · obtain ⟨hA1, hA2⟩ := hA
    refine ⟨fun h => rfl, fun h => ?_, fun h => ?_⟩
    · exfalso; linarith [h.2]
    · exact absurd ⟨hA1, hA2⟩ h.1
  · obtain ⟨hB1, hB2⟩ := hB
    refine ⟨fun h => ?_, fun h => rfl, fun h => ?_⟩
    · exfalso; linarith [h.1]
    · exact absurd ⟨hB1, hB2⟩ h.2
  · exact ⟨fun h => absurd h hA, fun h => absurd h hB, fun h => rfl⟩

/-- C4 witness: side-left 0.2, side-right 0.1, MIDDLE_MAZE_DISTANCE 0.085
gives left_error 0.115 > 0.1 and right_error 0.015 < 0.04, and the far
error is right_error. -/
theorem walls_C4_witness :
    get_side_sensors_far_error 0.085 (mkDistState 0 0 0.2 0.1) =
      (mkDistState 0 0 0.2 0.1).distance SENSOR_SIDE_RIGHT - 0.085 :=
  (walls_C4 0.085 (mkDistState 0 0 0.2 0.1)).1 ⟨by norm_num, by norm_num⟩

/-- C5: whenever both current front distances are strictly below 0.24,
`get_diagonal_sensors_error` returns front-right distance − 0.24 — the
right-side check takes precedence over the left. -/
theorem walls_C5 (s : WallsState)
    (hL : s.distance SENSOR_FRONT_LEFT < 0.24)
    (hR : s.distance SENSOR_FRONT_RIGHT < 0.24) :
    get_diagonal_sensors_error s = s.distance SENSOR_FRONT_RIGHT - 0.24 := by
  simp only [get_diagonal_sensors_error, DIAGONAL_MIN_DISTANCE]
  rw [if_pos (by linarith)]

/-- C5 witness: front-left 0.2 and front-right 0.1 are both below 0.24
and the diagonal error is 0.1 − 0.24. -/
theorem walls_C5_witness :
    get_diagonal_sensors_error (mkDistState 0.2 0.1 0 0) =
      (mkDistState 0.2 0.1 0 0).distance SENSOR_FRONT_RIGHT - 0.24 :=
  walls_C5 (mkDistState 0.2 0.1 0 0) (by norm_num) (by norm_num)

/-- C6: if the side-left distance is constant at 0.09 across the 20
calibration samples and MIDDLE_MAZE_DISTANCE is 0.085, one call to
`side_sensors_calibration` adds exactly (0.09 − 0.085) = 0.005 to the
existing side-left offset (accumulating, not replacing, so repeated
invocations compound the correction). -/
theorem walls_C6 (s : WallsState)
    (h : s.distance SENSOR_SIDE_LEFT = 0.09) :
    (side_sensors_calibration 0.085 s).calibration_factor SENSOR_SIDE_LEFT =
      s.calibration_factor SENSOR_SIDE_LEFT + 0.005 := by
  simp only [side_sensors_calibration, SIDE_CALIBRATION_READINGS,
    foldl_add_const, List.length_range, h]
  norm_num

/-- C6 witness: from the all-offsets-zero state with side-left distance
0.09, calibration leaves the side-left offset at 0 + 0.005. -/
theorem walls_C6_witness :
    (side_sensors_calibration 0.085
        (mkDistState 0 0 0.09 0)).calibration_factor SENSOR_SIDE_LEFT =
      (mkDistState 0 0 0.09 0).calibration_factor SENSOR_SIDE_LEFT + 0.005 :=
  walls_C6 (mkDistState 0 0 0.09 0) (by norm_num)

/-- C7: `left_wall_detection` (resp. `right_wall_detection`) is true iff
the current side-left (resp. side-right) distance is strictly less than
0.90 times the cell dimension; a distance exactly equal to the threshold
yields false. -/
theorem walls_C7 (CELL_DIMENSION : ℚ) (s : WallsState) :
    (left_wall_detection CELL_DIMENSION s = true ↔
      s.distance SENSOR_SIDE_LEFT < CELL_DIMENSION * 0.90) ∧
    (right_wall_detection CELL_DIMENSION s = true ↔
      s.distance SENSOR_SIDE_RIGHT < CELL_DIMENSION * 0.90) ∧
    (s.distance SENSOR_SIDE_LEFT = CELL_DIMENSION * 0.90 →
      left_wall_detection CELL_DIMENSION s = false) ∧
    (s.distance SENSOR_SIDE_RIGHT = CELL_DIMENSION * 0.90 →
      right_wall_detection CELL_DIMENSION s = false) := by
  refine ⟨by simp [left_wall_detection], by simp [right_wall_detection],
    fun h => ?_, fun h => ?_⟩
  · simp [left_wall_detection, h]
  · simp [right_wall_detection, h]

/-- C7 witness: with cell dimension 0.2 both side distances equal the
threshold 0.18 exactly and both detections are false. -/
theorem walls_C7_witness :
    left_wall_detection 0.2 (mkDistState 0 0 0.18 0.18) = false ∧
    right_wall_detection 0.2 (mkDistState 0 0 0.18 0.18) = false :=
  ⟨(walls_C7 0.2 (mkDistState 0 0 0.18 0.18)).2.2.1 (by norm_num),
   (walls_C7 0.2 (mkDistState 0 0 0.18 0.18)).2.2.2 (by norm_num)⟩

/-- C8: `get_front_sensors_error` returns 0 whenever
`front_wall_detection` is false; when it is true it returns front-left
minus front-right distance; and `front_wall_detection` is false whenever
either front distance is at or above 1.5 times the cell dimension. -/
theorem walls_C8 (CELL_DIMENSION : ℚ) (s : WallsState) :
    (front_wall_detection CELL_DIMENSION s = false →
      get_front_sensors_error CELL_DIMENSION s = 0) ∧
    (front_wall_detection CELL_DIMENSION s = true →
      get_front_sensors_error CELL_DIMENSION s =
        s.distance SENSOR_FRONT_LEFT - s.distance SENSOR_FRONT_RIGHT) ∧
    ((CELL_DIMENSION * 1.5 ≤ s.distance SENSOR_FRONT_LEFT ∨
      CELL_DIMENSION * 1.5 ≤ s.distance SENSOR_FRONT_RIGHT) →
      front_wall_detection CELL_DIMENSION s = false) := by
  refine ⟨fun h => ?_, fun h => ?_, fun h => ?_⟩
  · simp [get_front_sensors_error, h]
  · simp [get_front_sensors_error, h]
  · rcases h with h | h <;> simp [front_wall_detection, not_lt.mpr h]

/-- C8 witness: with cell dimension 0.2 the front threshold is 0.3; a
front-left distance of exactly 0.3 makes detection false and the front
error 0 even though the distances differ. -/
theorem walls_C8_witness :
    front_wall_detection 0.2 (mkDistState 0.3 0.1 0 0) = false ∧
    get_front_sensors_error 0.2 (mkDistState 0.3 0.1 0 0) = 0 :=
  ⟨(walls_C8 0.2 (mkDistState 0.3 0.1 0 0)).2.2 (Or.inl (by norm_num)),
   (walls_C8 0.2 (mkDistState 0.3 0.1 0 0)).1
     ((walls_C8 0.2 (mkDistState 0.3 0.1 0 0)).2.2 (Or.inl (by norm_num)))⟩

/-- C9: `side_sensors_calibration` modifies only the side calibration
offsets: the whole distance array and the two front calibration offsets
are unchanged. -/
theorem walls_C9 (MIDDLE_MAZE_DISTANCE : ℚ) (s : WallsState) :
    (side_sensors_calibration MIDDLE_MAZE_DISTANCE s).distance = s.distance ∧
    (side_sensors_calibration MIDDLE_MAZE_DISTANCE s).calibration_factor
        SENSOR_FRONT_LEFT = s.calibration_factor SENSOR_FRONT_LEFT ∧
    (side_sensors_calibration MIDDLE_MAZE_DISTANCE s).calibration_factor
        SENSOR_FRONT_RIGHT = s.calibration_factor SENSOR_FRONT_RIGHT :=
  ⟨rfl, (side_calibration_front_cf MIDDLE_MAZE_DISTANCE s).1,
    (side_calibration_front_cf MIDDLE_MAZE_DISTANCE s).2⟩

/-- C10: the front-left and front-right calibration offsets are zero in
the initial state and remain zero after every sequence of mutating
operations (`update_distance_readings` and `side_sensors_calibration`;
the accessors, detectors and error functions are pure reads), so front
distances are never offset-corrected. -/
theorem walls_C10 (ops : List Op) :
    (run_ops ops initial_state).calibration_factor SENSOR_FRONT_LEFT = 0 ∧
    (run_ops ops initial_state).calibration_factor SENSOR_FRONT_RIGHT = 0 :=
  ⟨(run_ops_cf_front ops initial_state).1,
   (run_ops_cf_front ops initial_state).2⟩

end Walls
